import Mathlib

/-!
Verification of the marshalling layer of the `wdi-rs` crate: owned/raw
conversions for device records and options structs, the error- and
driver-type code mappings, and the linked-list collection protocol of
`create_list`, together with the transient C-string buffer discipline of
`prepare_driver` and `install_driver`.

Pointers to C strings are embedded as `Option (List Nat)`: `none` is the
null pointer and `some bytes` is a non-null pointer together with the
bytes stored at the pointee (reading a `CStr` from it takes the bytes up
to and including the first zero).  Linked-list node pointers are embedded
as addresses (`Nat`, with `0` for null) into an association-list heap.
Foreign calls are modelled by their observable outcomes (status codes,
the heap the enumeration call produced) passed in as parameters, and the
functions additionally return the trace of foreign events they perform,
so that "the destroy call happens exactly once, after traversal" is a
statement about the trace.
-/

namespace Wdi

/-- Reading a C string out of the bytes stored at a non-null pointer:
`CStr::from_ptr` followed by `to_bytes_with_nul().to_vec()` yields the
bytes up to the first zero, plus the terminating zero. -/
def cstrBytes (m : List Nat) : List Nat :=
  m.takeWhile (fun b => b ≠ 0) ++ [0]

/-- A buffer that is a well-formed C string: null-terminated with no
interior zero byte. Stated as a fixed point of `cstrBytes` so that it is
decidable on concrete inputs. -/
def IsCString (s : List Nat) : Prop := cstrBytes s = s

instance (s : List Nat) : Decidable (IsCString s) := by
  unfold IsCString; infer_instance

/-- `CString::new` on a byte string: fails when the bytes contain a zero
byte, otherwise appends the terminating zero. -/
def cstringNew (s : List Nat) : Option (List Nat) :=
  if 0 ∈ s then none else some (s ++ [0])

/-- The caller-facing error type of `src/error.rs`. -/
inductive Error where
  | InvalidParam
  | Access
  | Resource
  | NotFound
  | NoDevice
  | Busy
deriving DecidableEq, Repr

/-- Outcome of running a piece of Rust code that may panic or return a
caller-facing error. `ub` marks executions the source performs via
`unsafe` dereferences of invalid pointers (undefined behavior). -/
inductive CResult (α : Type) where
  | ok (a : α)
  | err (e : Error)
  | panicked (msg : String)
  | ub
deriving DecidableEq, Repr

/-- Modelled from the spec: the concrete value of the foreign status-code
constant `WDI_ERROR_INVALID_PARAM` is declared in the `libwdi-sys` crate
but absent from the provided sources; per §6 the six recognized error
kinds are distinct small non-zero codes, and zero denotes success. -/
def WDI_ERROR_INVALID_PARAM : Int := -2

/-- Modelled from the spec: concrete value of `WDI_ERROR_ACCESS`, absent
from the provided sources; a distinct small non-zero code per §6. -/
def WDI_ERROR_ACCESS : Int := -3

/-- Modelled from the spec: concrete value of `WDI_ERROR_NO_DEVICE`,
absent from the provided sources; a distinct small non-zero code per §6. -/
def WDI_ERROR_NO_DEVICE : Int := -4

/-- Modelled from the spec: concrete value of `WDI_ERROR_NOT_FOUND`,
absent from the provided sources; a distinct small non-zero code per §6. -/
def WDI_ERROR_NOT_FOUND : Int := -5

/-- Modelled from the spec: concrete value of `WDI_ERROR_BUSY`, absent
from the provided sources; a distinct small non-zero code per §6. -/
def WDI_ERROR_BUSY : Int := -6

/-- Modelled from the spec: concrete value of `WDI_ERROR_RESOURCE`,
absent from the provided sources; a distinct small non-zero code per §6. -/
def WDI_ERROR_RESOURCE : Int := -11

/-- `Error::from_error_code` of `src/error.rs`: match on the six defined
codes (in source order), every other code yields `None`. -/
def Error.from_error_code (code : Int) : Option Error :=
  if code = WDI_ERROR_INVALID_PARAM then some .InvalidParam
  else if code = WDI_ERROR_ACCESS then some .Access
  else if code = WDI_ERROR_RESOURCE then some .Resource
  else if code = WDI_ERROR_NO_DEVICE then some .NoDevice
  else if code = WDI_ERROR_NOT_FOUND then some .NotFound
  else if code = WDI_ERROR_BUSY then some .Busy
  else none

/-- Modelled from the spec: concrete value of the driver-type code
`WDI_WINUSB`, absent from the provided sources; §8 fixes the four defined
codes to `{0, 1, 2, 3}` in declaration order. -/
def WDI_WINUSB : Int := 0

/-- Modelled from the spec: concrete value of `WDI_LIBUSB0`, absent from
the provided sources; the four defined codes are `{0, 1, 2, 3}`. -/
def WDI_LIBUSB0 : Int := 1

/-- Modelled from the spec: concrete value of `WDI_LIBUSBK`, absent from
the provided sources; the four defined codes are `{0, 1, 2, 3}`. -/
def WDI_LIBUSBK : Int := 2

/-- Modelled from the spec: concrete value of `WDI_USER`, absent from the
provided sources; the four defined codes are `{0, 1, 2, 3}`. -/
def WDI_USER : Int := 3

/-- The `DriverType` enum of `src/lib.rs` (`repr(i32)`, discriminants the
`WDI_*` driver-type constants). -/
inductive DriverType where
  | WinUsb
  | Libusb0
  | LibusbK
  | User
deriving DecidableEq, Repr

/-- The numeric value of a `DriverType` variant: its `repr(i32)`
discriminant, i.e. what `self.driver_type as i32` produces. -/
def DriverType.toRaw : DriverType → Int
  | .WinUsb => WDI_WINUSB
  | .Libusb0 => WDI_LIBUSB0
  | .LibusbK => WDI_LIBUSBK
  | .User => WDI_USER

/-- The error value returned when `DriverType::from_raw` fails. -/
structure DriverTypeConversionError where
deriving DecidableEq, Repr

/-- `DriverType::from_raw` of `src/lib.rs`: match on the four driver-type
constants (in source order), anything else is the conversion error. -/
def DriverType.from_raw (raw : Int) : Except DriverTypeConversionError DriverType :=
  if raw = WDI_WINUSB then .ok .WinUsb
  else if raw = WDI_LIBUSB0 then .ok .Libusb0
  else if raw = WDI_LIBUSBK then .ok .LibusbK
  else if raw = WDI_USER then .ok .User
  else .error DriverTypeConversionError.mk

/-- The raw `wdi_options_create_list` struct of the `libwdi-sys` crate:
three integer-encoded booleans. -/
structure wdi_options_create_list where
  list_all : Int
  list_hubs : Int
  trim_whitespaces : Int
deriving DecidableEq, Repr

/-- The `CreateListOptions` struct of `src/lib.rs`. -/
structure CreateListOptions where
  list_all : Bool
  list_hubs : Bool
  trim_whitespaces : Bool
deriving DecidableEq, Repr

/-- `CreateListOptions::as_raw`: each boolean becomes `b as i32`. -/
def CreateListOptions.as_raw (o : CreateListOptions) : wdi_options_create_list :=
  { list_all := if o.list_all then 1 else 0
    list_hubs := if o.list_hubs then 1 else 0
    trim_whitespaces := if o.trim_whitespaces then 1 else 0 }

/-- `CreateListOptions::from_raw`: each integer becomes `raw.field != 0`. -/
def CreateListOptions.from_raw (raw : wdi_options_create_list) : CreateListOptions :=
  { list_all := raw.list_all != 0
    list_hubs := raw.list_hubs != 0
    trim_whitespaces := raw.trim_whitespaces != 0 }

/-- Outcome of running code that may panic (and cannot otherwise fail). -/
inductive PanicOr (α : Type) where
  | panicked (msg : String)
  | value (a : α)
deriving DecidableEq, Repr

/-- The raw `wdi_device_info` struct of the `libwdi-sys` crate.  `next`
is an address into the foreign heap (`0` is the null pointer); the six
string pointers are embedded pointer-as-content (`none` for null, `some
bytes` for a non-null pointer to `bytes`). -/
structure wdi_device_info where
  next : Nat
  vid : Nat
  pid : Nat
  is_composite : Int
  mi : Nat
  desc : Option (List Nat)
  driver : Option (List Nat)
  device_id : Option (List Nat)
  hardware_id : Option (List Nat)
  compatible_id : Option (List Nat)
  upper_filter : Option (List Nat)
  driver_version : Nat
deriving DecidableEq, Repr

/-- The owned `DeviceInfo` struct of `src/lib.rs`. -/
structure DeviceInfo where
  vid : Nat
  pid : Nat
  is_composite : Bool
  mi : Nat
  desc : List Nat
  driver : Option (List Nat)
  device_id : Option (List Nat)
  hardware_id : Option (List Nat)
  compatible_id : Option (List Nat)
  upper_filter : Option (List Nat)
  driver_version : Nat
deriving DecidableEq, Repr

/-- `DeviceInfo::clone_from_raw` of `src/lib.rs`: panics when the
mandatory `desc` pointer is null, otherwise deep-copies each C string
(each optional field present exactly when its pointer is non-null). -/
def DeviceInfo.clone_from_raw (raw : wdi_device_info) : PanicOr DeviceInfo :=
  match raw.desc with
  | none => .panicked "Mantatory field wdi_device_info->desc is null"
  | some d =>
    let driver := match raw.driver with
      | some p => some (cstrBytes p)
      | none => none
    let device_id := match raw.device_id with
      | some p => some (cstrBytes p)
      | none => none
    let hardware_id := match raw.hardware_id with
      | some p => some (cstrBytes p)
      | none => none
    let compatible_id := match raw.compatible_id with
      | some p => some (cstrBytes p)
      | none => none
    let upper_filter := match raw.upper_filter with
      | some p => some (cstrBytes p)
      | none => none
    .value {
      vid := raw.vid
      pid := raw.pid
      is_composite := raw.is_composite != 0
      mi := raw.mi
      desc := cstrBytes d
      driver := driver
      device_id := device_id
      hardware_id := hardware_id
      compatible_id := compatible_id
      upper_filter := upper_filter
      driver_version := raw.driver_version }

/-- `DeviceInfo::as_raw` of `src/lib.rs`: a raw view borrowing the owned
buffers (pointer-as-content: each pointer field carries the pointee's
bytes), with `next` set to null and absent optional fields becoming null
pointers. -/
def DeviceInfo.as_raw (d : DeviceInfo) : wdi_device_info :=
  { next := 0
    vid := d.vid
    pid := d.pid
    is_composite := if d.is_composite then 1 else 0
    mi := d.mi
    desc := some d.desc
    driver := d.driver
    device_id := d.device_id
    hardware_id := d.hardware_id
    compatible_id := d.compatible_id
    upper_filter := d.upper_filter
    driver_version := d.driver_version }

/-- The foreign heap holding the linked list produced by
`wdi_create_list`: addresses paired with the raw nodes stored there. -/
def Heap : Type := List (Nat × wdi_device_info)

/-- Dereference an address in the foreign heap. -/
def Heap.deref : Heap → Nat → Option wdi_device_info
  | [], _ => none
  | (a, n) :: rest, p => if p = a then some n else Heap.deref rest p

/-- Observable foreign events of `create_list`: the enumeration call, a
read of the node at an address during traversal, and the destroy call. -/
inductive FEvent where
  | enumerate
  | visit (p : Nat)
  | destroy
deriving DecidableEq, Repr

/-- Observable outcomes of the two foreign calls `create_list` makes:
the enumeration call's status code and the heap and head pointer it
writes, and the destroy call's status code. -/
structure ForeignEnv where
  createCode : Int
  heap : Heap
  head : Nat
  destroyCode : Int

/-- The traversal loop of `create_list`: follow `next` links from `cur`
until null, deep-copying each node in order.  The loop in the source has
no fuel; fuel exhaustion and dereferencing a dangling address model the
non-terminating/undefined executions as `ub`. -/
def collect (heap : Heap) : Nat → Nat → List FEvent × CResult (List DeviceInfo)
  | 0, cur => if cur = 0 then ([], .ok []) else ([], .ub)
  | fuel' + 1, cur =>
    if cur = 0 then ([], .ok [])
    else
      match heap.deref cur with
      | none => ([.visit cur], .ub)
      | some node =>
        match DeviceInfo.clone_from_raw node with
        | .panicked m => ([.visit cur], .panicked m)
        | .value info =>
          let rest := collect heap fuel' node.next
          (.visit cur :: rest.1,
            match rest.2 with
            | .ok tail => .ok (info :: tail)
            | other => other)

/-- `create_list` of `src/lib.rs`, with the two foreign calls modelled by
`env`: classify the enumeration status; panic when success left a null
head pointer; traverse and deep-copy the list; destroy the foreign list;
classify the destroy status.  Also returns the trace of foreign events. -/
def create_list (options : CreateListOptions) (env : ForeignEnv) :
    CResult (List DeviceInfo) × List FEvent :=
  let _raw_opt := options.as_raw
  match Error.from_error_code env.createCode with
  | some e => (.err e, [.enumerate])
  | none =>
    if env.head = 0 then
      (.panicked "wdi_create_list() return indicated success, but the list pointer is still null!",
        [.enumerate])
    else
      let traversal := collect env.heap (env.heap.length + 1) env.head
      match traversal.2 with
      | .ok final_list =>
        match Error.from_error_code env.destroyCode with
        | some e => (.err e, .enumerate :: traversal.1 ++ [.destroy])
        | none => (.ok final_list, .enumerate :: traversal.1 ++ [.destroy])
      | .panicked m => (.panicked m, .enumerate :: traversal.1)
      | .err e => (.err e, .enumerate :: traversal.1)
      | .ub => (.ub, .enumerate :: traversal.1)

/-- The head pointer `p` addresses, in the foreign heap, a well-formed
null-terminated singly-linked list whose nodes (with their addresses, in
list order) are `l`. -/
inductive Chain (heap : Heap) : Nat → List (Nat × wdi_device_info) → Prop where
  | nil : Chain heap 0 []
  | cons {p : Nat} {node : wdi_device_info} {rest : List (Nat × wdi_device_info)} :
      p ≠ 0 → heap.deref p = some node → Chain heap node.next rest →
      Chain heap p ((p, node) :: rest)

/-- The `PrepareDriverOptions` struct of `src/lib.rs` (optional string
fields stored as owned null-terminated buffers). -/
structure PrepareDriverOptions where
  driver_type : DriverType
  vendor_name : Option (List Nat)
  device_guid : Option (List Nat)
  disable_cat : Bool
  disable_signing : Bool
  cert_subject : Option (List Nat)
  use_wcid_driver : Bool
  external_inf : Bool
deriving DecidableEq, Repr

/-- The `InstallDriverOptions` struct of `src/lib.rs`; the opaque `HWND`
handle is embedded as an address (`0` for null). -/
structure InstallDriverOptions where
  hwnd : Nat
  install_filter_driver : Bool
  pending_install_timeout : Nat
deriving DecidableEq, Repr

/-- The raw `wdi_options_prepare_driver` struct, string pointers embedded
pointer-as-content. -/
structure wdi_options_prepare_driver where
  driver_type : Int
  vendor_name : Option (List Nat)
  device_guid : Option (List Nat)
  disable_cat : Int
  disable_signing : Int
  cert_subject : Option (List Nat)
  use_wcid_driver : Int
  external_inf : Int
deriving DecidableEq, Repr

/-- `PrepareDriverOptions::as_raw`: the enum becomes its `i32` code,
booleans become `0`/`1`, present string buffers are exposed as pointers
into the owned buffers and absent ones as null. -/
def PrepareDriverOptions.as_raw (o : PrepareDriverOptions) : wdi_options_prepare_driver :=
  { driver_type := o.driver_type.toRaw
    vendor_name := o.vendor_name
    device_guid := o.device_guid
    disable_cat := if o.disable_cat then 1 else 0
    disable_signing := if o.disable_signing then 1 else 0
    cert_subject := o.cert_subject
    use_wcid_driver := if o.use_wcid_driver then 1 else 0
    external_inf := if o.external_inf then 1 else 0 }

/-- The raw `wdi_options_install_driver` struct. -/
structure wdi_options_install_driver where
  hWnd : Nat
  install_filter_driver : Int
  pending_install_timeout : Nat
deriving DecidableEq, Repr

/-- `InstallDriverOptions::as_raw`. -/
def InstallDriverOptions.as_raw (o : InstallDriverOptions) : wdi_options_install_driver :=
  { hWnd := o.hwnd
    install_filter_driver := if o.install_filter_driver then 1 else 0
    pending_install_timeout := o.pending_install_timeout }

/-- Observable events of `prepare_driver`/`install_driver`: allocation
and release of the two transient C-string buffers, and the one foreign
call. -/
inductive PEvent where
  | allocPath
  | allocInf
  | foreignCall
  | freePath
  | freeInf
deriving DecidableEq, Repr

/-- `prepare_driver` of `src/lib.rs`, the foreign `wdi_prepare_driver`
call modelled by its status code `ret`: convert the device, build the two
transient C-string buffers with `CString::new(..).unwrap()` (panicking on
an interior zero byte), convert the options, make the foreign call,
`drop` both buffers, then classify `ret`. -/
def prepare_driver (device : DeviceInfo) (path inf_name : List Nat)
    (options : PrepareDriverOptions) (ret : Int) : CResult Unit × List PEvent :=
  let _raw := device.as_raw
  match cstringNew path with
  | none => (.panicked "called Result::unwrap on an Err value: NulError", [])
  | some _cstr_path =>
    match cstringNew inf_name with
    | none => (.panicked "called Result::unwrap on an Err value: NulError", [.allocPath])
    | some _cstr_inf_name =>
      let _opt := options.as_raw
      let events := [PEvent.allocPath, PEvent.allocInf, PEvent.foreignCall,
        PEvent.freePath, PEvent.freeInf]
      match Error.from_error_code ret with
      | some e => (.err e, events)
      | none => (.ok (), events)

/-- `install_driver` of `src/lib.rs`, the foreign `wdi_install_driver`
call modelled by its status code `ret`; textually the same protocol as
`prepare_driver` with the install options type. -/
def install_driver (device : DeviceInfo) (path inf_name : List Nat)
    (options : InstallDriverOptions) (ret : Int) : CResult Unit × List PEvent :=
  let _raw := device.as_raw
  match cstringNew path with
  | none => (.panicked "called Result::unwrap on an Err value: NulError", [])
  | some _cstr_path =>
    match cstringNew inf_name with
    | none => (.panicked "called Result::unwrap on an Err value: NulError", [.allocPath])
    | some _cstr_inf_name =>
      let _opt := options.as_raw
      let events := [PEvent.allocPath, PEvent.allocInf, PEvent.foreignCall,
        PEvent.freePath, PEvent.freeInf]
      match Error.from_error_code ret with
      | some e => (.err e, events)
      | none => (.ok (), events)

/-- A sample description buffer, the C string "Test". -/
def descEx : List Nat := [84, 101, 115, 116, 0]

/-- A sample well-formed owned device record. -/
def devEx : DeviceInfo :=
  { vid := 0x1d50, pid := 0x6018, is_composite := false, mi := 0, desc := descEx,
    driver := none, device_id := none, hardware_id := none, compatible_id := none,
    upper_filter := none, driver_version := 0 }

/-- Sample prepare-driver options (the `Default` values of the source). -/
def prepOptsEx : PrepareDriverOptions :=
  { driver_type := .WinUsb, vendor_name := none, device_guid := none,
    disable_cat := false, disable_signing := false, cert_subject := none,
    use_wcid_driver := false, external_inf := false }

/-- Sample install-driver options (the `Default` values of the source). -/
def instOptsEx : InstallDriverOptions :=
  { hwnd := 0, install_filter_driver := false, pending_install_timeout := 0 }

/-- C4: `Error::from_error_code` maps each of the six defined status
codes to exactly its corresponding variant (and the six codes are
pairwise distinct, so the correspondence is one-to-one); code `0` and
every other integer map to `none`. -/
theorem from_error_code_exact_mapping :
    (Error.from_error_code WDI_ERROR_INVALID_PARAM = some .InvalidParam
      ∧ Error.from_error_code WDI_ERROR_ACCESS = some .Access
      ∧ Error.from_error_code WDI_ERROR_RESOURCE = some .Resource
      ∧ Error.from_error_code WDI_ERROR_NOT_FOUND = some .NotFound
      ∧ Error.from_error_code WDI_ERROR_NO_DEVICE = some .NoDevice
      ∧ Error.from_error_code WDI_ERROR_BUSY = some .Busy)
    ∧ ([WDI_ERROR_INVALID_PARAM, WDI_ERROR_ACCESS, WDI_ERROR_RESOURCE,
        WDI_ERROR_NOT_FOUND, WDI_ERROR_NO_DEVICE, WDI_ERROR_BUSY] : List Int).Nodup
    ∧ Error.from_error_code 0 = none
    ∧ ∀ code : Int, code ≠ WDI_ERROR_INVALID_PARAM → code ≠ WDI_ERROR_ACCESS →
        code ≠ WDI_ERROR_RESOURCE → code ≠ WDI_ERROR_NOT_FOUND →
        code ≠ WDI_ERROR_NO_DEVICE → code ≠ WDI_ERROR_BUSY →
        Error.from_error_code code = none := by
  refine ⟨by decide, by decide, by decide, ?_⟩
  intro code h1 h2 h3 h4 h5 h6
  simp only [Error.from_error_code, if_neg h1, if_neg h2, if_neg h3, if_neg h4,
    if_neg h5, if_neg h6]

/-- Witness for C4 at the unrecognized non-zero code `7`. -/
theorem from_error_code_exact_mapping_witness : Error.from_error_code 7 = none :=
  from_error_code_exact_mapping.2.2.2 7 (by decide) (by decide) (by decide) (by decide)
    (by decide) (by decide)

/-- C5: `DriverType::from_raw` succeeds on each of the four defined
driver-type codes, yielding the variant whose `i32` value round-trips to
the same code; every integer outside the four codes yields the
`DriverTypeConversionError` value (the function is total: it never panics
and never substitutes a default variant). -/
theorem driver_type_from_raw_spec :
    (DriverType.from_raw WDI_WINUSB = .ok .WinUsb
      ∧ DriverType.from_raw WDI_LIBUSB0 = .ok .Libusb0
      ∧ DriverType.from_raw WDI_LIBUSBK = .ok .LibusbK
      ∧ DriverType.from_raw WDI_USER = .ok .User)
    ∧ (DriverType.WinUsb.toRaw = WDI_WINUSB
      ∧ DriverType.Libusb0.toRaw = WDI_LIBUSB0
      ∧ DriverType.LibusbK.toRaw = WDI_LIBUSBK
      ∧ DriverType.User.toRaw = WDI_USER)
    ∧ (∀ v : DriverType, DriverType.from_raw v.toRaw = .ok v)
    ∧ ∀ code : Int, code ≠ WDI_WINUSB → code ≠ WDI_LIBUSB0 → code ≠ WDI_LIBUSBK →
        code ≠ WDI_USER →
        DriverType.from_raw code = .error DriverTypeConversionError.mk := by
  refine ⟨⟨rfl, rfl, rfl, rfl⟩, ⟨rfl, rfl, rfl, rfl⟩, by intro v; cases v <;> rfl, ?_⟩
  intro code h0 h1 h2 h3
  simp only [DriverType.from_raw, if_neg h0, if_neg h1, if_neg h2, if_neg h3]

/-- Witness for C5 at the invalid code `42`. -/
theorem driver_type_from_raw_spec_witness :
    DriverType.from_raw 42 = .error DriverTypeConversionError.mk :=
  driver_type_from_raw_spec.2.2.2 42 (by decide) (by decide) (by decide) (by decide)

/-- C8: `CreateListOptions::as_raw` followed by `from_raw` is the
identity on all eight boolean combinations (booleans encoded as `1`/`0`),
and in particular the options with `list_all` and `trim_whitespaces` set
convert to the raw struct `(1, 0, 1)` and back to the identical struct. -/
theorem create_list_options_roundtrip :
    (∀ o : CreateListOptions, CreateListOptions.from_raw o.as_raw = o)
    ∧ CreateListOptions.as_raw ⟨true, false, true⟩ = ⟨1, 0, 1⟩
    ∧ CreateListOptions.from_raw ⟨1, 0, 1⟩ = ⟨true, false, true⟩ := by
  refine ⟨?_, by decide, by decide⟩
  intro o
  rcases o with ⟨a, b, c⟩
  cases a <;> cases b <;> cases c <;> decide

/-- Encoding a boolean as `b as i32` and reading it back as `!= 0` is the
identity. -/
theorem int_encode_bool (b : Bool) : ((if b then (1 : Int) else 0) != 0) = b := by
  cases b <;> rfl

/-- A well-formed C string is a fixed point of the C-string read. -/
theorem cstrBytes_of_isCString {s : List Nat} (h : IsCString s) : cstrBytes s = s := h

/-- C2: for every well-formed `DeviceInfo` (mandatory `desc` and each
present optional buffer a null-terminated C string with no interior
zero), `as_raw` produces a raw struct whose `next` link is null, and
`clone_from_raw` of that raw struct returns the original value. -/
theorem device_info_roundtrip (d : DeviceInfo)
    (hdesc : IsCString d.desc)
    (hdriver : ∀ s, d.driver = some s → IsCString s)
    (hdev : ∀ s, d.device_id = some s → IsCString s)
    (hhw : ∀ s, d.hardware_id = some s → IsCString s)
    (hcompat : ∀ s, d.compatible_id = some s → IsCString s)
    (hupper : ∀ s, d.upper_filter = some s → IsCString s) :
    d.as_raw.next = 0 ∧ DeviceInfo.clone_from_raw d.as_raw = .value d := by
  refine ⟨rfl, ?_⟩
  have hdr : (match d.driver with
      | some p => some (cstrBytes p)
      | none => none) = d.driver := by
    cases h : d.driver with
    | none => rfl
    | some s => simp [cstrBytes_of_isCString (hdriver s h)]
  have hdi : (match d.device_id with
      | some p => some (cstrBytes p)
      | none => none) = d.device_id := by
    cases h : d.device_id with
    | none => rfl
    | some s => simp [cstrBytes_of_isCString (hdev s h)]
  have hhi : (match d.hardware_id with
      | some p => some (cstrBytes p)
      | none => none) = d.hardware_id := by
    cases h : d.hardware_id with
    | none => rfl
    | some s => simp [cstrBytes_of_isCString (hhw s h)]
  have hci : (match d.compatible_id with
      | some p => some (cstrBytes p)
      | none => none) = d.compatible_id := by
    cases h : d.compatible_id with
    | none => rfl
    | some s => simp [cstrBytes_of_isCString (hcompat s h)]
  have hui : (match d.upper_filter with
      | some p => some (cstrBytes p)
      | none => none) = d.upper_filter := by
    cases h : d.upper_filter with
    | none => rfl
    | some s => simp [cstrBytes_of_isCString (hupper s h)]
  rcases d with ⟨vid, pid, ic, mi, desc, dr, di, hw, ci, uf, dv⟩
  simp only [DeviceInfo.as_raw, DeviceInfo.clone_from_raw] at *
  simp only [hdr, hdi, hhi, hci, hui, int_encode_bool,
    cstrBytes_of_isCString hdesc]

/-- Witness for C2 at the sample device (present `desc`, all optional
fields absent). -/
theorem device_info_roundtrip_witness :
    devEx.as_raw.next = 0 ∧ DeviceInfo.clone_from_raw devEx.as_raw = .value devEx :=
  device_info_roundtrip devEx (by decide)
    (by intro s h; cases h) (by intro s h; cases h) (by intro s h; cases h)
    (by intro s h; cases h) (by intro s h; cases h)

/-- C6: `clone_from_raw` panics exactly when the mandatory `desc` pointer
is null; when it is non-null the call succeeds and each optional field of
the result is present exactly when the corresponding raw pointer is
non-null, holding a copy of the C string read from the pointee. -/
theorem clone_from_raw_contract (raw : wdi_device_info) :
    (raw.desc = none →
      DeviceInfo.clone_from_raw raw
        = .panicked "Mantatory field wdi_device_info->desc is null")
    ∧ ∀ d, raw.desc = some d →
        ∃ info, DeviceInfo.clone_from_raw raw = .value info
          ∧ info.desc = cstrBytes d
          ∧ info.driver = raw.driver.map cstrBytes
          ∧ info.device_id = raw.device_id.map cstrBytes
          ∧ info.hardware_id = raw.hardware_id.map cstrBytes
          ∧ info.compatible_id = raw.compatible_id.map cstrBytes
          ∧ info.upper_filter = raw.upper_filter.map cstrBytes
          ∧ info.driver.isSome = raw.driver.isSome
          ∧ info.device_id.isSome = raw.device_id.isSome
          ∧ info.hardware_id.isSome = raw.hardware_id.isSome
          ∧ info.compatible_id.isSome = raw.compatible_id.isSome
          ∧ info.upper_filter.isSome = raw.upper_filter.isSome := by
  constructor
  · intro h
    simp [DeviceInfo.clone_from_raw, h]
  · intro d hd
    have hmap : ∀ o : Option (List Nat),
        (match o with
          | some p => some (cstrBytes p)
          | none => none) = o.map cstrBytes := by
      intro o; cases o <;> rfl
    refine ⟨⟨raw.vid, raw.pid, (raw.is_composite != 0), raw.mi, cstrBytes d,
        raw.driver.map cstrBytes, raw.device_id.map cstrBytes,
        raw.hardware_id.map cstrBytes, raw.compatible_id.map cstrBytes,
        raw.upper_filter.map cstrBytes, raw.driver_version⟩,
      ?_, rfl, rfl, rfl, rfl, rfl, rfl, ?_, ?_, ?_, ?_, ?_⟩
    · simp [DeviceInfo.clone_from_raw, hd, hmap]
    all_goals cases raw.driver <;> cases raw.device_id <;> cases raw.hardware_id
      <;> cases raw.compatible_id <;> cases raw.upper_filter <;> rfl

/-- Witness for C6 at the sample device's raw view (non-null `desc`). -/
theorem clone_from_raw_contract_witness :
    ∃ info, DeviceInfo.clone_from_raw devEx.as_raw = .value info
      ∧ info.desc = cstrBytes descEx
      ∧ info.driver = devEx.as_raw.driver.map cstrBytes
      ∧ info.device_id = devEx.as_raw.device_id.map cstrBytes
      ∧ info.hardware_id = devEx.as_raw.hardware_id.map cstrBytes
      ∧ info.compatible_id = devEx.as_raw.compatible_id.map cstrBytes
      ∧ info.upper_filter = devEx.as_raw.upper_filter.map cstrBytes
      ∧ info.driver.isSome = devEx.as_raw.driver.isSome
      ∧ info.device_id.isSome = devEx.as_raw.device_id.isSome
      ∧ info.hardware_id.isSome = devEx.as_raw.hardware_id.isSome
      ∧ info.compatible_id.isSome = devEx.as_raw.compatible_id.isSome
      ∧ info.upper_filter.isSome = devEx.as_raw.upper_filter.isSome :=
  (clone_from_raw_contract devEx.as_raw).2 descEx rfl

/-- C9: `prepare_driver` and `install_driver` (on inputs whose C-string
conversion succeeds) each perform exactly the event sequence
"allocate both transient buffers, one foreign call, release both
buffers" — so both buffers are released whatever the call's status code —
and return unit success exactly when the code maps to no `Error` variant,
returning the classified variant otherwise. -/
theorem driver_ops_contract (dev : DeviceInfo) (path inf_name : List Nat)
    (popts : PrepareDriverOptions) (iopts : InstallDriverOptions) (ret : Int)
    (hp : 0 ∉ path) (hi : 0 ∉ inf_name) :
    ((prepare_driver dev path inf_name popts ret).2
        = [.allocPath, .allocInf, .foreignCall, .freePath, .freeInf]
      ∧ (prepare_driver dev path inf_name popts ret).2.count .foreignCall = 1
      ∧ ((prepare_driver dev path inf_name popts ret).1 = .ok ()
          ↔ Error.from_error_code ret = none)
      ∧ (∀ e, Error.from_error_code ret = some e
          → (prepare_driver dev path inf_name popts ret).1 = .err e))
    ∧ ((install_driver dev path inf_name iopts ret).2
        = [.allocPath, .allocInf, .foreignCall, .freePath, .freeInf]
      ∧ (install_driver dev path inf_name iopts ret).2.count .foreignCall = 1
      ∧ ((install_driver dev path inf_name iopts ret).1 = .ok ()
          ↔ Error.from_error_code ret = none)
      ∧ (∀ e, Error.from_error_code ret = some e
          → (install_driver dev path inf_name iopts ret).1 = .err e)) := by
  have hpath : cstringNew path = some (path ++ [0]) := by simp [cstringNew, hp]
  have hinf : cstringNew inf_name = some (inf_name ++ [0]) := by simp [cstringNew, hi]
  cases hret : Error.from_error_code ret with
  | none =>
    refine ⟨⟨?_, ?_, ?_, ?_⟩, ?_, ?_, ?_, ?_⟩ <;>
      simp [prepare_driver, install_driver, hpath, hinf, hret]
  | some e =>
    refine ⟨⟨?_, ?_, ?_, ?_⟩, ?_, ?_, ?_, ?_⟩ <;>
      simp [prepare_driver, install_driver, hpath, hinf, hret]

/-- Witness for C9 at concrete arguments: nul-free path and INF name,
with the recognized error code for `Access`. -/
theorem driver_ops_contract_witness :
    (prepare_driver devEx [104] [105] prepOptsEx WDI_ERROR_ACCESS).1 = .err .Access
    ∧ (install_driver devEx [104] [105] instOptsEx WDI_ERROR_ACCESS).1 = .err .Access :=
  ⟨(driver_ops_contract devEx [104] [105] prepOptsEx instOptsEx WDI_ERROR_ACCESS
      (by decide) (by decide)).1.2.2.2 .Access (by decide),
    (driver_ops_contract devEx [104] [105] prepOptsEx instOptsEx WDI_ERROR_ACCESS
      (by decide) (by decide)).2.2.2.2 .Access (by decide)⟩

/-- C10: when the path argument (or the INF-name argument) contains an
interior zero byte, `prepare_driver` and `install_driver` panic on the
unwrapped C-string conversion before any foreign call (the traces contain
no `foreignCall` event); a nul in the INF name panics after the path
buffer was allocated. -/
theorem driver_ops_nul_byte_panic (dev : DeviceInfo) (path inf_name : List Nat)
    (popts : PrepareDriverOptions) (iopts : InstallDriverOptions) (ret : Int) :
    (0 ∈ path →
      prepare_driver dev path inf_name popts ret
          = (.panicked "called Result::unwrap on an Err value: NulError", [])
        ∧ install_driver dev path inf_name iopts ret
          = (.panicked "called Result::unwrap on an Err value: NulError", []))
    ∧ (0 ∉ path → 0 ∈ inf_name →
      prepare_driver dev path inf_name popts ret
          = (.panicked "called Result::unwrap on an Err value: NulError", [.allocPath])
        ∧ install_driver dev path inf_name iopts ret
          = (.panicked "called Result::unwrap on an Err value: NulError", [.allocPath])) := by
  constructor
  · intro hp
    constructor <;> simp [prepare_driver, install_driver, cstringNew, hp]
  · intro hp hi
    constructor <;> simp [prepare_driver, install_driver, cstringNew, hp, hi]

/-- Witness for C10: a nul byte in the path, and a nul byte in the INF
name, at concrete arguments. -/
theorem driver_ops_nul_byte_panic_witness :
    (prepare_driver devEx [0] [105] prepOptsEx 0
        = (.panicked "called Result::unwrap on an Err value: NulError", [])
      ∧ install_driver devEx [0] [105] instOptsEx 0
        = (.panicked "called Result::unwrap on an Err value: NulError", []))
    ∧ (prepare_driver devEx [104] [0] prepOptsEx 0
        = (.panicked "called Result::unwrap on an Err value: NulError", [.allocPath])
      ∧ install_driver devEx [104] [0] instOptsEx 0
        = (.panicked "called Result::unwrap on an Err value: NulError", [.allocPath])) :=
  ⟨(driver_ops_nul_byte_panic devEx [0] [105] prepOptsEx instOptsEx 0).1 (by decide),
    (driver_ops_nul_byte_panic devEx [104] [0] prepOptsEx instOptsEx 0).2
      (by decide) (by decide)⟩

/-- C3 (failing input): the unrecognized non-zero status code `-7` maps
to no `Error` variant, so `prepare_driver` and `install_driver` return
unit success for it, and `create_list` proceeds exactly as on the zero
success code — the code conflates undefined non-zero codes with success,
contrary to the spec's requirement. -/
theorem unrecognized_code_conflated_with_success :
    Error.from_error_code (-7) = none
    ∧ (prepare_driver devEx [104] [105] prepOptsEx (-7)).1 = .ok ()
    ∧ (install_driver devEx [104] [105] instOptsEx (-7)).1 = .ok ()
    ∧ (create_list ⟨false, false, false⟩
        ⟨-7, [(1, devEx.as_raw)], 1, 0⟩).1 = .ok [devEx]
    ∧ (create_list ⟨false, false, false⟩
        ⟨0, [(1, devEx.as_raw)], 1, 0⟩).1 = .ok [devEx] := by
  refine ⟨rfl, rfl, rfl, ?_, ?_⟩ <;> rfl

/-- C7: whenever the enumeration status code maps to no known error
(success) but the output list head pointer is still null, `create_list`
panics after the single enumeration call, returning neither a value nor a
caller-facing error. -/
theorem create_list_null_head_panics (opts : CreateListOptions) (env : ForeignEnv)
    (hsucc : Error.from_error_code env.createCode = none) (hnull : env.head = 0) :
    create_list opts env
      = (.panicked "wdi_create_list() return indicated success, but the list pointer is still null!",
        [.enumerate]) := by
  simp [create_list, hsucc, hnull]

/-- Witness for C7 at a concrete environment: status code `0`, null head
pointer. -/
theorem create_list_null_head_panics_witness :
    create_list ⟨false, false, false⟩ ⟨0, [], 0, 0⟩
      = (.panicked "wdi_create_list() return indicated success, but the list pointer is still null!",
        [.enumerate]) :=
  create_list_null_head_panics ⟨false, false, false⟩ ⟨0, [], 0, 0⟩ rfl rfl

/-- Dereferencing succeeds only at an address present in the heap. -/
theorem deref_mem {heap : Heap} {p : Nat} {n : wdi_device_info}
    (h : Heap.deref heap p = some n) : p ∈ heap.map Prod.fst := by
  induction heap with
  | nil => simp [Heap.deref] at h
  | cons hd tl ih =>
    rcases hd with ⟨a, m⟩
    by_cases hpa : p = a
    · simp [hpa]
    · simp only [Heap.deref, if_neg hpa] at h
      simpa using Or.inr (ih h)

/-- A head pointer determines its chain uniquely (the heap lookup is a
function). -/
theorem chain_deterministic {heap : Heap} {p : Nat}
    {l₁ l₂ : List (Nat × wdi_device_info)}
    (h1 : Chain heap p l₁) (h2 : Chain heap p l₂) : l₁ = l₂ := by
  induction h1 generalizing l₂ with
  | nil =>
    cases h2 with
    | nil => rfl
    | cons hp _ _ => exact absurd rfl hp
  | cons hp hderef _hrest ih =>
    cases h2 with
    | nil => exact absurd rfl hp
    | cons hp' hderef' hrest' =>
      rw [hderef] at hderef'
      injection hderef' with hnode
      subst hnode
      rw [ih hrest']

/-- Every entry of a chain heads a chain of its own, strictly shorter
than the whole. -/
theorem chain_mem {heap : Heap} {p : Nat} {l : List (Nat × wdi_device_info)}
    (h : Chain heap p l) :
    ∀ q n, (q, n) ∈ l → ∃ t, Chain heap q ((q, n) :: t) ∧ t.length < l.length := by
  induction h with
  | nil =>
    intro q n hmem
    cases hmem
  | cons hp hderef hrest ih =>
    intro q n hmem
    rcases List.mem_cons.mp hmem with heq | hmem'
    · have hq : q = _ := congrArg Prod.fst heq
      have hn : n = _ := congrArg Prod.snd heq
      subst hq; subst hn
      exact ⟨_, Chain.cons hp hderef hrest, Nat.lt_succ_self _⟩
    · obtain ⟨t, hc, hlen⟩ := ih q n hmem'
      exact ⟨t, hc, Nat.lt_succ_of_lt hlen⟩

/-- The addresses along a chain are pairwise distinct: revisiting an
address would give the same address two chains of different lengths. -/
theorem chain_nodup {heap : Heap} {p : Nat} {l : List (Nat × wdi_device_info)}
    (h : Chain heap p l) : (l.map Prod.fst).Nodup := by
  induction h with
  | nil => exact List.nodup_nil
  | cons hp hderef hrest ih =>
    rename_i p node rest
    rw [List.map_cons, List.nodup_cons]
    refine ⟨?_, ih⟩
    intro hmem
    obtain ⟨⟨q, m⟩, hmem', hq⟩ := List.mem_map.mp hmem
    simp only at hq
    rw [hq] at hmem'
    obtain ⟨t, hc, hlen⟩ := chain_mem hrest p m hmem'
    have hdet := chain_deterministic hc (Chain.cons hp hderef hrest)
    have : t = rest := by injection hdet
    rw [this] at hlen
    exact lt_irrefl _ hlen

/-- A chain cannot have more nodes than the heap has cells. -/
theorem chain_length_le {heap : Heap} {p : Nat} {l : List (Nat × wdi_device_info)}
    (h : Chain heap p l) : l.length ≤ heap.length := by
  have hnd : (l.map Prod.fst).Nodup := chain_nodup h
  have hsub : ∀ a ∈ l.map Prod.fst, a ∈ heap.map Prod.fst := by
    intro a ha
    obtain ⟨⟨q, n⟩, hmem, rfl⟩ := List.mem_map.mp ha
    obtain ⟨t, hc, -⟩ := chain_mem h q n hmem
    cases hc with
    | cons _ hderef _ => exact deref_mem hderef
  calc l.length = (l.map Prod.fst).length := by simp
    _ = (l.map Prod.fst).toFinset.card := (List.toFinset_card_of_nodup hnd).symm
    _ ≤ (heap.map Prod.fst).toFinset.card := by
        refine Finset.card_le_card ?_
        intro x hx
        rw [List.mem_toFinset] at hx ⊢
        exact hsub x hx
    _ ≤ (heap.map Prod.fst).length := List.toFinset_card_le _
    _ = heap.length := by simp

/-- A raw node with a non-null `desc` deep-copies without panicking. -/
theorem clone_value_of_desc {raw : wdi_device_info} (h : raw.desc ≠ none) :
    ∃ info, DeviceInfo.clone_from_raw raw = .value info := by
  cases hd : raw.desc with
  | none => exact absurd hd h
  | some d =>
    simp only [DeviceInfo.clone_from_raw, hd]
    exact ⟨_, rfl⟩

/-- The traversal loop visits exactly the chain's addresses in order and
deep-copies its nodes in order, given enough fuel and panicking on no
node. -/
theorem collect_chain {heap : Heap} {p : Nat} {l : List (Nat × wdi_device_info)}
    (h : Chain heap p l) (hdesc : ∀ pn ∈ l, pn.2.desc ≠ none) :
    ∀ fuel, l.length ≤ fuel →
      ∃ infos, collect heap fuel p = (l.map fun pn => .visit pn.1, .ok infos)
        ∧ l.map (fun pn => DeviceInfo.clone_from_raw pn.2) = infos.map .value := by
  induction h with
  | nil =>
    intro fuel _
    exact ⟨[], by cases fuel <;> simp [collect], rfl⟩
  | cons hp hderef hrest ih =>
    rename_i p node rest
    intro fuel hfuel
    cases fuel with
    | zero => simp at hfuel
    | succ fuel' =>
      have hfuel' : rest.length ≤ fuel' := by
        simpa using Nat.le_of_succ_le_succ (by simpa using hfuel)
      obtain ⟨info, hclone⟩ := clone_value_of_desc (hdesc (p, node) (by simp))
      obtain ⟨infos, hcol, hmap⟩ :=
        ih (fun pn hm => hdesc pn (List.mem_cons_of_mem _ hm)) fuel' hfuel'
      refine ⟨info :: infos, ?_, ?_⟩
      · simp only [collect, if_neg hp, hderef, hclone, hcol, List.map_cons]
      · simp only [List.map_cons, hclone, hmap]

/-- C1 (counterexample to the claim as stated): a successful enumeration
call (status code `0`) whose linked list has zero nodes leaves the head
pointer null, and `create_list` then panics after the enumeration call:
its trace contains no destroy call at all (count `0`, not exactly once)
and no owned sequence is produced. -/
theorem create_list_zero_nodes_counterexample :
    (create_list ⟨false, false, false⟩ ⟨0, [], 0, 0⟩).2.count .destroy = 0
    ∧ (create_list ⟨false, false, false⟩ ⟨0, [], 0, 0⟩).1
      = .panicked "wdi_create_list() return indicated success, but the list pointer is still null!" := by
  exact ⟨rfl, rfl⟩

/-- C1 (amended): for every *non-empty* singly-linked list of raw device
nodes with non-null `desc` returned by a successful foreign enumeration
call, `create_list` visits the nodes in list order and invokes the
foreign destroy call exactly once, after traversal completes and never
before; when the destroy call reports no mapped error the result is the
owned sequence of deep copies, in list order and of the same length (and
the classified destroy error otherwise). -/
theorem create_list_collects (opts : CreateListOptions) (env : ForeignEnv)
    (l : List (Nat × wdi_device_info))
    (hcreate : Error.from_error_code env.createCode = none)
    (hchain : Chain env.heap env.head l)
    (hne : l ≠ [])
    (hdesc : ∀ pn ∈ l, pn.2.desc ≠ none) :
    (create_list opts env).2
        = .enumerate :: (l.map fun pn => .visit pn.1) ++ [.destroy]
    ∧ (create_list opts env).2.count .destroy = 1
    ∧ (Error.from_error_code env.destroyCode = none →
        ∃ infos, (create_list opts env).1 = .ok infos
          ∧ l.map (fun pn => DeviceInfo.clone_from_raw pn.2) = infos.map .value
          ∧ infos.length = l.length)
    ∧ ∀ e, Error.from_error_code env.destroyCode = some e →
        (create_list opts env).1 = .err e := by
  have hhead : env.head ≠ 0 := by
    intro h0
    rw [h0] at hchain
    cases hchain with
    | nil => exact hne rfl
    | cons hp _ _ => exact hp rfl
  have hlen : l.length ≤ env.heap.length + 1 :=
    le_trans (chain_length_le hchain) (Nat.le_succ _)
  obtain ⟨infos, hcol, hmap⟩ := collect_chain hchain hdesc (env.heap.length + 1) hlen
  have hlen_eq : infos.length = l.length := by
    have h1 := congrArg List.length hmap
    simpa using h1.symm
  have hcount :
      (FEvent.enumerate :: (l.map fun pn => FEvent.visit pn.1)
        ++ [FEvent.destroy]).count FEvent.destroy = 1 := by
    have h0 : (l.map fun pn => FEvent.visit pn.1).count FEvent.destroy = 0 := by
      rw [List.count_eq_zero]
      simp
    simp [List.count_cons, List.count_append, h0]
  cases hdc : Error.from_error_code env.destroyCode with
  | none =>
    have hcl : create_list opts env
        = (.ok infos, .enumerate :: (l.map fun pn => .visit pn.1) ++ [.destroy]) := by
      simp only [create_list, hcreate, if_neg hhead, hcol, hdc]
    refine ⟨by rw [hcl], by rw [hcl]; exact hcount, ?_, ?_⟩
    · exact fun _ => ⟨infos, by rw [hcl], hmap, hlen_eq⟩
    · intro e he
      exact Option.noConfusion he
  | some e =>
    have hcl : create_list opts env
        = (.err e, .enumerate :: (l.map fun pn => .visit pn.1) ++ [.destroy]) := by
      simp only [create_list, hcreate, if_neg hhead, hcol, hdc]
    refine ⟨by rw [hcl], by rw [hcl]; exact hcount, ?_, ?_⟩
    · intro hnone
      exact Option.noConfusion hnone
    · intro e' he'
      injection he' with h
      rw [hcl]
      exact congrArg CResult.err h

/-- Witness for C1 (amended) at a one-node list: node at address `1`,
successful enumeration and destroy codes. -/
theorem create_list_collects_witness :
    (create_list ⟨false, false, false⟩ ⟨0, [(1, devEx.as_raw)], 1, 0⟩).2.count .destroy = 1
    ∧ ∃ infos,
        (create_list ⟨false, false, false⟩ ⟨0, [(1, devEx.as_raw)], 1, 0⟩).1 = .ok infos
        ∧ infos.length = 1 := by
  have hchain : Chain [(1, devEx.as_raw)] 1 [(1, devEx.as_raw)] :=
    Chain.cons (by decide) rfl Chain.nil
  have h := create_list_collects ⟨false, false, false⟩ ⟨0, [(1, devEx.as_raw)], 1, 0⟩
    [(1, devEx.as_raw)] rfl hchain (by simp)
    (by
      intro pn hm
      rw [List.mem_singleton] at hm
      rw [hm]
      simp [devEx, DeviceInfo.as_raw])
  obtain ⟨-, h2, h3, -⟩ := h
  obtain ⟨infos, hok, -, hlen⟩ := h3 rfl
  exact ⟨h2, infos, hok, by simpa using hlen⟩

end Wdi
